import Mathlib

/-!
The bootstrap program `src/main.cpp` of webrtc-template.

The repository's only translation unit is `main`, a straight-line sequence of four calls into
the WebRTC base library followed by `return 0`.  The sources of the library are not at hand,
so `main` is embedded as a state-passing function over an arbitrary `rtc.Library`;
a tracing wrapper records the calls `main` makes, and a second library instance follows the
words of the specification (sections 3, 4 and 7) for the logging sink and the secure-transport
context.
-/

namespace WebrtcTemplate

namespace rtc

/-- Modelled from the spec: the enum `rtc::LoggingSeverity` is declared in `rtc_base/logging.h`,
which is absent; the five levels are those of the spec's `LogLevel`
(`Verbose < Info < Warning < Error < None`), under the names `main.cpp` uses. -/
inductive LoggingSeverity where
  | LS_VERBOSE
  | LS_INFO
  | LS_WARNING
  | LS_ERROR
  | LS_NONE
  deriving DecidableEq, Repr

/-- Modelled from the spec: position of a level in the order
`Verbose < Info < Warning < Error < None` (the enumerator values of the absent header). -/
def LoggingSeverity.rank : LoggingSeverity → Nat
  | .LS_VERBOSE => 0
  | .LS_INFO => 1
  | .LS_WARNING => 2
  | .LS_ERROR => 3
  | .LS_NONE => 4

instance : LE LoggingSeverity := ⟨fun a b => a.rank ≤ b.rank⟩

instance : LT LoggingSeverity := ⟨fun a b => a.rank < b.rank⟩

instance (a b : LoggingSeverity) : Decidable (a ≤ b) :=
  inferInstanceAs (Decidable (a.rank ≤ b.rank))

instance (a b : LoggingSeverity) : Decidable (a < b) :=
  inferInstanceAs (Decidable (a.rank < b.rank))

/-- Modelled from the spec: `LogTimestamps` is declared in the absent `rtc_base/logging.h` with
a defaulted flag; `main.cpp` passes no argument, and the spec's Scenario A reads the call as
`enableTimestamps(true)`. -/
def LogTimestamps_default_on : Bool := true

/-- The entry points of the library that a program can call: the two secure-transport calls of
`rtc_base/ssl_adapter.h` and the three logging calls of `rtc_base/logging.h`. -/
inductive LibCall where
  | InitializeSSL
  | CleanupSSL
  | LogToDebug (min_sev : LoggingSeverity)
  | LogTimestamps (on_ : Bool)
  | RTC_LOG (sev : LoggingSeverity) (text : String)
  deriving DecidableEq, Repr

/-- Whether a call belongs to the secure-transport library. -/
def LibCall.isSecureTransport : LibCall → Bool
  | .InitializeSSL => true
  | .CleanupSSL => true
  | _ => false

/-- Whether a call configures the log sink (minimum level or timestamp flag). -/
def LibCall.isSinkConfiguration : LibCall → Bool
  | .LogToDebug _ => true
  | .LogTimestamps _ => true
  | _ => false

/-- Whether a call is a log call. -/
def LibCall.isLog : LibCall → Bool
  | .RTC_LOG _ _ => true
  | _ => false

/-- The external library as `main.cpp` sees it: each entry point acts on the process-wide
library state `σ`; the two secure-transport calls also report a `bool`. -/
structure Library (σ : Type) where
  InitializeSSL : σ → Bool × σ
  CleanupSSL : σ → Bool × σ
  LogToDebug : LoggingSeverity → σ → σ
  LogTimestamps : Bool → σ → σ
  RTC_LOG : LoggingSeverity → String → σ → σ

/-- One executed library call: the library state before it, the call, the `bool` it reported
(for the secure-transport calls) and the library state after it. -/
structure Event (σ : Type) where
  pre : σ
  call : LibCall
  returned : Option Bool
  post : σ

/-- The same library, with every executed call appended to a log of events. -/
def Library.traced {σ : Type} (L : Library σ) : Library (σ × List (Event σ)) where
  InitializeSSL := fun st =>
    let r := L.InitializeSSL st.1
    (r.1, (r.2, st.2 ++ [⟨st.1, .InitializeSSL, some r.1, r.2⟩]))
  CleanupSSL := fun st =>
    let r := L.CleanupSSL st.1
    (r.1, (r.2, st.2 ++ [⟨st.1, .CleanupSSL, some r.1, r.2⟩]))
  LogToDebug := fun min_sev st =>
    let s := L.LogToDebug min_sev st.1
    (s, st.2 ++ [⟨st.1, .LogToDebug min_sev, none, s⟩])
  LogTimestamps := fun on_ st =>
    let s := L.LogTimestamps on_ st.1
    (s, st.2 ++ [⟨st.1, .LogTimestamps on_, none, s⟩])
  RTC_LOG := fun sev text st =>
    let s := L.RTC_LOG sev text st.1
    (s, st.2 ++ [⟨st.1, .RTC_LOG sev text, none, s⟩])

/-- A library without state whose secure-transport calls always report `result`. -/
def constLibrary (result : Bool) : Library Unit where
  InitializeSSL := fun _ => (result, ())
  CleanupSSL := fun _ => (result, ())
  LogToDebug := fun _ _ => ()
  LogTimestamps := fun _ _ => ()
  RTC_LOG := fun _ _ _ => ()

end rtc

open rtc

/-- The program `int main()` of `src/main.cpp`: the value reported by `rtc::InitializeSSL()` is
discarded, the three logging statements follow, and the exit code is the literal `0`. -/
def main {σ : Type} (L : Library σ) (s0 : σ) : Int × σ :=
  let s1 := (L.InitializeSSL s0).2
  let s2 := L.LogToDebug .LS_INFO s1
  let s3 := L.LogTimestamps LogTimestamps_default_on s2
  let s4 := L.RTC_LOG .LS_INFO "Hello WebRTC!" s3
  (0, s4)

/-- What the operating system hands to a process at start. -/
structure Invocation where
  argv : List String
  envp : List (String × String)

/-- Starting the process: `main` is declared as `int main()`, without parameters, so the
command line and the environment of the invocation are not passed on to it. -/
def start {σ : Type} (_inv : Invocation) (L : Library σ) (s0 : σ) : Int × σ :=
  main L s0

/-- The exit code of a run of `main`. -/
def exitCode {σ : Type} (L : Library σ) (s0 : σ) : Int :=
  (main L.traced (s0, [])).1

/-- The library state when `main` returns. -/
def finalState {σ : Type} (L : Library σ) (s0 : σ) : σ :=
  (main L.traced (s0, [])).2.1

/-- The events of a run of `main`, in execution order. -/
def events {σ : Type} (L : Library σ) (s0 : σ) : List (Event σ) :=
  (main L.traced (s0, [])).2.2

/-- The calls `main` makes, in execution order. -/
def callTrace {σ : Type} (L : Library σ) (s0 : σ) : List LibCall :=
  (events L s0).map Event.call

/-- The calls `main` makes to the secure-transport library, in execution order. -/
def secureTransportTrace {σ : Type} (L : Library σ) (s0 : σ) : List LibCall :=
  (callTrace L s0).filter LibCall.isSecureTransport

/-- The exit code and calls of a run started by the operating system. -/
def observe {σ : Type} (inv : Invocation) (L : Library σ) (s0 : σ) : Int × List LibCall :=
  ((start inv L.traced (s0, [])).1, (start inv L.traced (s0, [])).2.2.map Event.call)

/-! The collaborators as the specification describes them -/

namespace Spec

/-- Modelled from the spec: the error of `initializeSecureTransport` (section 7); the library
behind `rtc::InitializeSSL` is absent. -/
inductive InitError where
  | AlreadyInitialized
  | TransportError
  deriving DecidableEq, Repr

/-- Modelled from the spec: the error of `shutdownSecureTransport` (section 7). -/
inductive ShutdownError where
  | NotInitialized
  deriving DecidableEq, Repr

/-- Modelled from the spec: `SecureTransportContext` (section 3), whether the TLS/SSL library
has been set up. -/
structure SecureTransportContext where
  initialized : Bool
  deriving DecidableEq, Repr

/-- Modelled from the spec: `SinkTarget`, the destination kinds named in section 6. -/
inductive SinkTarget where
  | console
  | file
  | network
  deriving DecidableEq, Repr

/-- Modelled from the spec: `LogSinkConfig` (section 3), the minimum severity and the timestamp
flag. -/
structure LogSinkConfig where
  minLevel : LoggingSeverity
  timestamps : Bool
  deriving DecidableEq, Repr

/-- Modelled from the spec: `LogRecord` (section 3): severity, optional timestamp, text. -/
structure LogRecord where
  severity : LoggingSeverity
  timestamp : Option Nat
  message : String
  deriving DecidableEq, Repr

/-- Modelled from the spec: the process-wide logging state machine of section 4.2. -/
inductive SinkState where
  | Uninitialized
  | Configured
  | Active
  deriving DecidableEq, Repr

/-- Modelled from the spec: the process-wide state the two components share: the transport
context, whether the underlying transport library will fail its set-up (the opaque
`TransportError`), the sink configuration, target and state, the clock reading used for
timestamps, and the records the destination has received, oldest first. -/
structure Process where
  transport : SecureTransportContext
  transportFault : Bool
  config : LogSinkConfig
  target : SinkTarget
  phase : SinkState
  clock : Nat
  destination : List LogRecord
  deriving DecidableEq, Repr

/-- Modelled from the spec: `initializeSecureTransport` (section 4.1) with policy (a) of P4:
a second call without shutdown fails with `AlreadyInitialized`; a fault of the underlying
library is passed through as `TransportError`; success allocates the context. -/
def initializeSecureTransport (p : Process) : Except InitError Unit × Process :=
  if p.transport.initialized then (.error .AlreadyInitialized, p)
  else if p.transportFault then (.error .TransportError, p)
  else (.ok (), { p with transport := ⟨true⟩ })

/-- Modelled from the spec: `shutdownSecureTransport` (section 4.1, P3): fails with
`NotInitialized` and leaves the state alone without a prior successful set-up, otherwise
releases the context. -/
def shutdownSecureTransport (p : Process) : Except ShutdownError Unit × Process :=
  if p.transport.initialized then (.ok (), { p with transport := ⟨false⟩ })
  else (.error .NotInitialized, p)

/-- Modelled from the spec: the transitions of section 4.2 caused by a configuration call:
`Uninitialized → Configured`; no other transition is listed, so the other states stay. -/
def SinkState.afterConfigure : SinkState → SinkState
  | .Uninitialized => .Configured
  | .Configured => .Configured
  | .Active => .Active

/-- Modelled from the spec: the transitions of section 4.2 caused by a log call:
`Configured → Active`, a no-op in `Active`; none is listed for `Uninitialized`. -/
def SinkState.afterLog : SinkState → SinkState
  | .Uninitialized => .Uninitialized
  | .Configured => .Active
  | .Active => .Active

/-- Modelled from the spec: `configureSink(minLevel, destination)` (section 4.2). -/
def configureSink (minLevel : LoggingSeverity) (destination : SinkTarget) (p : Process) :
    Process :=
  { p with
    config := { p.config with minLevel := minLevel }
    target := destination
    phase := p.phase.afterConfigure }

/-- Modelled from the spec: `enableTimestamps(enabled)` (section 4.2). -/
def enableTimestamps (enabled : Bool) (p : Process) : Process :=
  { p with
    config := { p.config with timestamps := enabled }
    phase := p.phase.afterConfigure }

/-- Modelled from the spec: the record a log call constructs: the timestamp is present exactly
when the configuration asks for it. -/
def makeRecord (p : Process) (level : LoggingSeverity) (message : String) : LogRecord :=
  { severity := level
    timestamp := if p.config.timestamps then some p.clock else none
    message := message }

/-- Modelled from the spec: `log(level, message)` (section 4.2): the record is forwarded to the
destination if `level >= minLevel` and dropped silently otherwise. -/
def log (level : LoggingSeverity) (message : String) (p : Process) : Process :=
  if p.config.minLevel ≤ level then
    { p with
      destination := p.destination ++ [makeRecord p level message]
      phase := p.phase.afterLog }
  else
    { p with phase := p.phase.afterLog }

/-- Modelled from the spec: the external library of `main.cpp` read through the spec's
component operations (Scenario A): `rtc::InitializeSSL` is `initializeSecureTransport`,
`rtc::CleanupSSL` is `shutdownSecureTransport`, `LogToDebug(l)` is `configureSink(l, console)`,
`LogTimestamps(b)` is `enableTimestamps(b)` and `RTC_LOG(l) << m` is `log(l, m)`. -/
def library : Library Process where
  InitializeSSL := fun p => ((initializeSecureTransport p).1.isOk, (initializeSecureTransport p).2)
  CleanupSSL := fun p => ((shutdownSecureTransport p).1.isOk, (shutdownSecureTransport p).2)
  LogToDebug := fun min_sev p => configureSink min_sev .console p
  LogTimestamps := fun on_ p => enableTimestamps on_ p
  RTC_LOG := fun sev text p => log sev text p

/-- Modelled from the spec: a process at start: nothing set up, nothing received; the sink
configuration before any configuration call is not fixed by the spec and is a parameter. -/
def processStart (fault : Bool) (config : LogSinkConfig) (clock : Nat) : Process :=
  { transport := ⟨false⟩
    transportFault := fault
    config := config
    target := .console
    phase := .Uninitialized
    clock := clock
    destination := [] }

end Spec

/-- Modelled from the spec: how many records one log call hands to the destination. -/
def Spec.forwardedCount (level : LoggingSeverity) (message : String) (p : Spec.Process) : Nat :=
  (Spec.log level message p).destination.length - p.destination.length

/-! Facts about every run of `main` -/

/-- The tracing wrapper does not change what `main` computes. -/
theorem traced_faithful {σ : Type} (L : Library σ) (s0 : σ) :
    exitCode L s0 = (main L s0).1 ∧ finalState L s0 = (main L s0).2 := by
  constructor <;> rfl

/-- The events of a run of `main`: four calls, each starting in the state the previous one
left. -/
theorem events_eq {σ : Type} (L : Library σ) (s0 : σ) :
    events L s0 =
      [ ⟨s0, .InitializeSSL, some (L.InitializeSSL s0).1, (L.InitializeSSL s0).2⟩,
        ⟨(L.InitializeSSL s0).2, .LogToDebug .LS_INFO, none,
          L.LogToDebug .LS_INFO (L.InitializeSSL s0).2⟩,
        ⟨L.LogToDebug .LS_INFO (L.InitializeSSL s0).2, .LogTimestamps true, none,
          L.LogTimestamps true (L.LogToDebug .LS_INFO (L.InitializeSSL s0).2)⟩,
        ⟨L.LogTimestamps true (L.LogToDebug .LS_INFO (L.InitializeSSL s0).2),
          .RTC_LOG .LS_INFO "Hello WebRTC!", none,
          L.RTC_LOG .LS_INFO "Hello WebRTC!"
            (L.LogTimestamps true (L.LogToDebug .LS_INFO (L.InitializeSSL s0).2))⟩ ] := by
  rfl

/-- The calls of `main`, whatever the library does. -/
theorem callTrace_eq {σ : Type} (L : Library σ) (s0 : σ) :
    callTrace L s0 =
      [.InitializeSSL, .LogToDebug .LS_INFO, .LogTimestamps true,
        .RTC_LOG .LS_INFO "Hello WebRTC!"] := by
  rfl

/-- The exit code of `main`, whatever the library does. -/
theorem exitCode_eq {σ : Type} (L : Library σ) (s0 : σ) : exitCode L s0 = 0 := by
  rfl

/-- The library state when `main` returns. -/
theorem finalState_eq {σ : Type} (L : Library σ) (s0 : σ) :
    finalState L s0 =
      L.RTC_LOG .LS_INFO "Hello WebRTC!"
        (L.LogTimestamps true (L.LogToDebug .LS_INFO (L.InitializeSSL s0).2)) := by
  rfl

/-- No event of a run of `main` is a call of `rtc::CleanupSSL`. -/
theorem no_CleanupSSL_event {σ : Type} (L : Library σ) (s0 : σ) (e : Event σ)
    (he : e ∈ events L s0) : e.call ≠ .CleanupSSL := by
  rw [events_eq] at he
  simp only [List.mem_cons, List.mem_singleton, List.not_mem_nil, or_false] at he
  rcases he with h | h | h | h <;> subst h <;> simp

/-! Facts about the collaborators of the specification -/

namespace Spec

/-- Setting up the transport touches neither the sink nor the destination. -/
theorem initializeSecureTransport_frame (p : Process) :
    (initializeSecureTransport p).2.config = p.config ∧
      (initializeSecureTransport p).2.phase = p.phase ∧
      (initializeSecureTransport p).2.clock = p.clock ∧
      (initializeSecureTransport p).2.destination = p.destination := by
  unfold initializeSecureTransport
  split_ifs <;> simp

/-- One log call forwards one record when the level passes the filter, none otherwise. -/
theorem forwardedCount_eq (level : LoggingSeverity) (message : String) (p : Process) :
    forwardedCount level message p = if p.config.minLevel ≤ level then 1 else 0 := by
  unfold forwardedCount log
  split_ifs <;> simp

/-- The destination after `main` in the library of the specification. -/
theorem main_destination (p : Process) :
    (finalState library p).destination =
      p.destination ++ [⟨.LS_INFO, some p.clock, "Hello WebRTC!"⟩] := by
  obtain ⟨_, _, hclock, hdest⟩ := initializeSecureTransport_frame p
  rw [finalState_eq]
  simp only [library, log, configureSink, enableTimestamps, makeRecord]
  rw [if_pos (by decide)]
  simp [hclock, hdest]

end Spec

/-! Scenario A and the secure-transport life cycle -/

/-- C1, as stated, fails at a fresh process: Scenario A asks for one record, a successful
shutdown call after it, and exit code 0, but a run of `main` contains no shutdown call. -/
theorem C1_scenarioA_shutdown_counterexample :
    ¬ ((finalState Spec.library (Spec.processStart false ⟨.LS_VERBOSE, false⟩ 0)).destination =
          [⟨.LS_INFO, some 0, "Hello WebRTC!"⟩] ∧
        (∃ e ∈ events Spec.library (Spec.processStart false ⟨.LS_VERBOSE, false⟩ 0),
          e.call = .CleanupSSL ∧ e.returned = some true) ∧
        exitCode Spec.library (Spec.processStart false ⟨.LS_VERBOSE, false⟩ 0) = 0) := by
  rintro ⟨_, ⟨e, he, hcall, _⟩, _⟩
  exact no_CleanupSSL_event _ _ e he hcall

/-- C1 (amended): in Scenario A (transport not yet set up, no transport fault) the set-up call
of `main` reports success, the destination receives exactly one record, of severity Info,
carrying a timestamp and the text `Hello WebRTC!`, `main` makes no shutdown call, so the
transport context is still set up when it returns, and the exit code is 0. -/
theorem C1_scenarioA_amended (p : Spec.Process) (hfresh : p.transport.initialized = false)
    (hfault : p.transportFault = false) :
    (Spec.library.InitializeSSL p).1 = true ∧
      (finalState Spec.library p).destination =
        p.destination ++ [⟨.LS_INFO, some p.clock, "Hello WebRTC!"⟩] ∧
      (∀ e ∈ events Spec.library p, e.call ≠ .CleanupSSL) ∧
      (finalState Spec.library p).transport.initialized = true ∧
      exitCode Spec.library p = 0 := by
  refine ⟨?_, Spec.main_destination p, fun e he => no_CleanupSSL_event _ _ e he, ?_, rfl⟩
  · simp [Spec.library, Spec.initializeSecureTransport, hfresh, hfault, Except.isOk,
      Except.toBool]
  · rw [finalState_eq]
    simp only [Spec.library, Spec.log, Spec.configureSink, Spec.enableTimestamps]
    rw [if_pos (by decide)]
    simp [Spec.initializeSecureTransport, hfresh, hfault]

/-- C1 (amended) at a fresh process with clock reading 7. -/
theorem C1_scenarioA_amended_witness :
    (Spec.library.InitializeSSL (Spec.processStart false ⟨.LS_NONE, false⟩ 7)).1 = true ∧
      (finalState Spec.library (Spec.processStart false ⟨.LS_NONE, false⟩ 7)).destination =
        [] ++ [⟨.LS_INFO, some 7, "Hello WebRTC!"⟩] ∧
      (∀ e ∈ events Spec.library (Spec.processStart false ⟨.LS_NONE, false⟩ 7),
        e.call ≠ .CleanupSSL) ∧
      (finalState Spec.library
        (Spec.processStart false ⟨.LS_NONE, false⟩ 7)).transport.initialized = true ∧
      exitCode Spec.library (Spec.processStart false ⟨.LS_NONE, false⟩ 7) = 0 :=
  C1_scenarioA_amended (Spec.processStart false ⟨.LS_NONE, false⟩ 7) rfl rfl

/-- C2, as stated, fails: the secure-transport calls of a run of `main` are not the pair
set-up, shutdown. -/
theorem C2_two_calls_counterexample :
    secureTransportTrace (constLibrary true) () ≠ [.InitializeSSL, .CleanupSSL] := by
  decide

/-- C2 (amended): on every exit path of `main`, that is for every library behaviour and every
starting state, the calls `main` makes to the secure-transport library are exactly one, the
set-up call, made before the three logging calls; no shutdown call is made before `main`
returns, which it does with exit code 0. -/
theorem C2_single_secure_transport_call {σ : Type} (L : Library σ) (s0 : σ) :
    secureTransportTrace L s0 = [.InitializeSSL] ∧
      callTrace L s0 =
        .InitializeSSL ::
          [.LogToDebug .LS_INFO, .LogTimestamps true, .RTC_LOG .LS_INFO "Hello WebRTC!"] ∧
      LibCall.CleanupSSL ∉ callTrace L s0 ∧
      (∀ e ∈ events L s0, e.call ≠ .CleanupSSL) ∧
      exitCode L s0 = 0 ∧
      (main L s0).1 = 0 := by
  refine ⟨rfl, rfl, ?_, fun e he => no_CleanupSSL_event L s0 e he, rfl, rfl⟩
  rw [callTrace_eq]
  simp

/-- C3, as stated, fails: with a library whose set-up call reports failure, `main` still exits
with code 0 and still runs the later steps. -/
theorem C3_fail_fast_counterexample :
    ((constLibrary false).InitializeSSL ()).1 = false ∧
      ¬ (exitCode (constLibrary false) () ≠ 0 ∧
          ∀ c ∈ callTrace (constLibrary false) (), c = .InitializeSSL) := by
  refine ⟨rfl, ?_⟩
  rintro ⟨h, _⟩
  exact h rfl

/-- C3 (amended): if secure-transport set-up reports failure, `main` does not abort: the
reported value is discarded, sink configuration, timestamp enabling and the log call are all
executed, in that order, and the exit code is 0. -/
theorem C3_failure_is_ignored {σ : Type} (L : Library σ) (s0 : σ)
    (hfail : (L.InitializeSSL s0).1 = false) :
    exitCode L s0 = 0 ∧
      (events L s0).map (fun e => (e.call, e.returned)) =
        [(.InitializeSSL, some false), (.LogToDebug .LS_INFO, none),
          (.LogTimestamps true, none), (.RTC_LOG .LS_INFO "Hello WebRTC!", none)] := by
  refine ⟨rfl, ?_⟩
  rw [events_eq]
  simp [hfail]

/-- C3 (amended) at a library whose set-up call always reports failure. -/
theorem C3_failure_is_ignored_witness :
    ((constLibrary false).InitializeSSL ()).1 = false ∧
      exitCode (constLibrary false) () = 0 ∧
      (events (constLibrary false) ()).map (fun e => (e.call, e.returned)) =
        [(.InitializeSSL, some false), (.LogToDebug .LS_INFO, none),
          (.LogTimestamps true, none), (.RTC_LOG .LS_INFO "Hello WebRTC!", none)] :=
  ⟨rfl, C3_failure_is_ignored (constLibrary false) () rfl⟩

/-- C4: `main` returns exit code 0, and since the value reported by `rtc::InitializeSSL` is
never inspected, the exit code is 0 for every value that call can report. -/
theorem C4_exit_code_always_zero {σ : Type} (L : Library σ) (s0 : σ) (result : Bool) :
    (main L s0).1 = 0 ∧
      exitCode L s0 = 0 ∧
      exitCode { L with InitializeSSL := fun s => (result, (L.InitializeSSL s).2) } s0 = 0 ∧
      (events { L with InitializeSSL := fun s => (result, (L.InitializeSSL s).2) } s0).head?.map
          (fun e => (e.call, e.returned)) = some (.InitializeSSL, some result) := by
  exact ⟨rfl, rfl, rfl, rfl⟩

/-- C5: in the call trace of `main` the secure-transport set-up is the first call and precedes
every other call, `LogToDebug` and `LogTimestamps` come next, the log call comes after both,
and every call starts in the library state its predecessor left, the first of these being
the state the set-up call returned. -/
theorem C5_call_order {σ : Type} (L : Library σ) (s0 : σ) :
    (callTrace L s0).head? = some .InitializeSSL ∧
      (∀ c ∈ callTrace L s0, c ≠ .InitializeSSL →
        (callTrace L s0).indexOf .InitializeSSL < (callTrace L s0).indexOf c) ∧
      callTrace L s0 =
        [.InitializeSSL, .LogToDebug .LS_INFO, .LogTimestamps true,
          .RTC_LOG .LS_INFO "Hello WebRTC!"] ∧
      (callTrace L s0).indexOf (.LogToDebug .LS_INFO) <
        (callTrace L s0).indexOf (.RTC_LOG .LS_INFO "Hello WebRTC!") ∧
      (callTrace L s0).indexOf (.LogTimestamps true) <
        (callTrace L s0).indexOf (.RTC_LOG .LS_INFO "Hello WebRTC!") ∧
      (events L s0).head?.map (fun e => (e.pre, e.post)) = some (s0, (L.InitializeSSL s0).2) ∧
      List.Chain' (fun a b => b.pre = a.post) (events L s0) := by
  rw [callTrace_eq]
  refine ⟨rfl, ?_, rfl, by decide, by decide, rfl, ?_⟩
  · intro c hc hne
    simp only [List.mem_cons, List.mem_singleton, List.not_mem_nil, or_false] at hc
    rcases hc with h | h | h | h <;> subst h
    · exact absurd rfl hne
    · decide
    · decide
    · decide
  · rw [events_eq]
    simp

/-! The logging sink -/

/-- C6: for every pair of levels of the order Verbose < Info < Warning < Error < None, a log
call at `callLevel` made after the sink was configured with `minLevel` hands exactly one
record to the destination if `callLevel >= minLevel` and none otherwise; the log call of
`main` (Info under minimum Info) is forwarded, and a call at Info under minimum Warning
forwards nothing. -/
theorem C6_level_filtering (minLevel callLevel : LoggingSeverity) (target : Spec.SinkTarget)
    (text : String) (p : Spec.Process) :
    (Spec.forwardedCount callLevel text (Spec.configureSink minLevel target p) = 1 ↔
        callLevel ≥ minLevel) ∧
      (Spec.forwardedCount callLevel text (Spec.configureSink minLevel target p) = 0 ↔
        ¬ callLevel ≥ minLevel) ∧
      (Spec.log callLevel text (Spec.configureSink minLevel target p)).destination =
        (if callLevel ≥ minLevel then
          p.destination ++
            [⟨callLevel, if p.config.timestamps then some p.clock else none, text⟩]
        else p.destination) ∧
      ((LoggingSeverity.LS_VERBOSE < LoggingSeverity.LS_INFO ∧
          LoggingSeverity.LS_INFO < LoggingSeverity.LS_WARNING ∧
          LoggingSeverity.LS_WARNING < LoggingSeverity.LS_ERROR ∧
          LoggingSeverity.LS_ERROR < LoggingSeverity.LS_NONE) ∧
        ∀ a b : LoggingSeverity, a < b ∨ a = b ∨ b < a) ∧
      (∃ e ∈ events Spec.library p, e.call.isLog = true) ∧
      (∀ e ∈ events Spec.library p, e.call.isLog = true →
        e.pre.config.minLevel = .LS_INFO ∧
          e.call = .RTC_LOG .LS_INFO "Hello WebRTC!" ∧
          e.post.destination =
            e.pre.destination ++ [⟨.LS_INFO, some e.pre.clock, "Hello WebRTC!"⟩]) ∧
      Spec.forwardedCount .LS_INFO "ignored" (Spec.configureSink .LS_WARNING .console p) = 0 := by
  have hmin : (Spec.configureSink minLevel target p).config.minLevel = minLevel := rfl
  refine ⟨?_, ?_, ?_, ⟨by decide, ?_⟩, ?_, ?_, ?_⟩
  · rw [Spec.forwardedCount_eq, hmin]
    show (if minLevel ≤ callLevel then 1 else 0) = 1 ↔ minLevel ≤ callLevel
    split_ifs with h <;> simp [h]
  · rw [Spec.forwardedCount_eq, hmin]
    show (if minLevel ≤ callLevel then 1 else 0) = 0 ↔ ¬ minLevel ≤ callLevel
    split_ifs with h <;> simp [h]
  · show _ = if minLevel ≤ callLevel then _ else _
    unfold Spec.log
    rw [hmin]
    by_cases h : minLevel ≤ callLevel <;> simp [h, Spec.configureSink, Spec.makeRecord]
  · intro a b
    cases a <;> cases b <;> decide
  · rw [events_eq]
    simp [LibCall.isLog]
  · intro e he hlog
    rw [events_eq] at he
    simp only [List.mem_cons, List.mem_singleton, List.not_mem_nil, or_false] at he
    rcases he with h | h | h | h <;> subst h
    · simp [LibCall.isLog] at hlog
    · simp [LibCall.isLog] at hlog
    · simp [LibCall.isLog] at hlog
    · refine ⟨rfl, rfl, ?_⟩
      simp only [Spec.library, Spec.log, Spec.configureSink, Spec.enableTimestamps,
        Spec.makeRecord]
      rw [if_pos (by decide)]
      simp
  · rw [Spec.forwardedCount_eq]
    rfl

/-- C7: switching timestamps on or off leaves the minimum severity of the sink unchanged, so
for every level a log call forwards the same number of records before and after the toggle;
in `main` the minimum level before and after `LogTimestamps()` is the Info that
`LogToDebug(LS_INFO)` set. -/
theorem C7_timestamp_toggle_independent (enabled : Bool) (level : LoggingSeverity)
    (text : String) (p : Spec.Process) :
    (Spec.enableTimestamps enabled p).config.minLevel = p.config.minLevel ∧
      Spec.forwardedCount level text (Spec.enableTimestamps enabled p) =
        Spec.forwardedCount level text p ∧
      (Spec.enableTimestamps enabled p).destination = p.destination ∧
      (∃ e ∈ events Spec.library p, e.call = .LogTimestamps true) ∧
      (∀ e ∈ events Spec.library p, e.call = .LogToDebug .LS_INFO →
        e.post.config.minLevel = .LS_INFO) ∧
      (∀ e ∈ events Spec.library p, e.call = .LogTimestamps true →
        e.pre.config.minLevel = .LS_INFO ∧ e.post.config.minLevel = .LS_INFO) := by
  refine ⟨rfl, ?_, rfl, ?_, ?_, ?_⟩
  · rw [Spec.forwardedCount_eq, Spec.forwardedCount_eq]
    rfl
  · rw [events_eq]
    exact ⟨_, List.mem_cons_of_mem _ (List.mem_cons_of_mem _ (List.mem_cons_self _ _)), rfl⟩
  · intro e he hcall
    rw [events_eq] at he
    simp only [List.mem_cons, List.mem_singleton, List.not_mem_nil, or_false] at he
    rcases he with h | h | h | h <;> subst h
    · simp at hcall
    · rfl
    · simp at hcall
    · simp at hcall
  · intro e he hcall
    rw [events_eq] at he
    simp only [List.mem_cons, List.mem_singleton, List.not_mem_nil, or_false] at he
    rcases he with h | h | h | h <;> subst h
    · simp at hcall
    · simp at hcall
    · exact ⟨rfl, rfl⟩
    · simp at hcall

/-- C8: started with the sink in state `Uninitialized`, `main` takes the logging state machine
through Uninitialized, Configured, Active: the state is Configured after `LogToDebug` and after
`LogTimestamps` and Active after the single log call; no configuration call is made in state
Active, the log call is the last event and changes no configuration, and every change of the
sink configuration is made by a configuration call before it. -/
theorem C8_configure_before_use (p : Spec.Process) (hphase : p.phase = .Uninitialized) :
    (events Spec.library p).map (fun e => (e.call, e.pre.phase, e.post.phase)) =
        [(.InitializeSSL, .Uninitialized, .Uninitialized),
          (.LogToDebug .LS_INFO, .Uninitialized, .Configured),
          (.LogTimestamps true, .Configured, .Configured),
          (.RTC_LOG .LS_INFO "Hello WebRTC!", .Configured, .Active)] ∧
      (∀ e ∈ events Spec.library p, e.call.isSinkConfiguration = true →
        e.pre.phase ≠ .Active) ∧
      (∃ before ev, events Spec.library p = before ++ [ev] ∧ ev.call.isLog = true ∧
        ev.post.config = ev.pre.config ∧ ∀ e ∈ before, e.call.isLog = false) ∧
      (∀ e ∈ events Spec.library p, e.post.config ≠ e.pre.config →
        e.call.isSinkConfiguration = true) := by
  have hinit : (Spec.initializeSecureTransport p).2.phase = .Uninitialized := by
    rw [(Spec.initializeSecureTransport_frame p).2.1, hphase]
  have hcfg : (Spec.initializeSecureTransport p).2.config = p.config :=
    (Spec.initializeSecureTransport_frame p).1
  refine ⟨?_, ?_, ?_, ?_⟩
  · rw [events_eq]
    simp [Spec.library, Spec.log, Spec.configureSink, Spec.enableTimestamps, hinit, hphase,
      Spec.SinkState.afterConfigure, Spec.SinkState.afterLog, apply_ite]
  · intro e he hconf
    rw [events_eq] at he
    simp only [List.mem_cons, List.mem_singleton, List.not_mem_nil, or_false] at he
    rcases he with h | h | h | h <;> subst h
    · simp [LibCall.isSinkConfiguration] at hconf
    · simp [Spec.library, hinit]
    · simp [Spec.library, Spec.configureSink, hinit, Spec.SinkState.afterConfigure]
    · simp [LibCall.isSinkConfiguration] at hconf
  · rw [events_eq]
    refine ⟨[_, _, _], _, rfl, rfl, ?_, ?_⟩
    · simp only [Spec.library, Spec.log]
      split_ifs <;> rfl
    · intro e he
      simp only [List.mem_cons, List.mem_singleton, List.not_mem_nil, or_false] at he
      rcases he with h | h | h <;> subst h <;> rfl
  · intro e he hne
    rw [events_eq] at he
    simp only [List.mem_cons, List.mem_singleton, List.not_mem_nil, or_false] at he
    rcases he with h | h | h | h <;> subst h
    · exact absurd hcfg hne
    · rfl
    · rfl
    · exfalso
      apply hne
      simp only [Spec.library, Spec.log]
      split_ifs <;> rfl

/-- C8 at a fresh process. -/
theorem C8_configure_before_use_witness :
    (Spec.processStart false ⟨.LS_ERROR, false⟩ 3).phase = .Uninitialized ∧
      (events Spec.library (Spec.processStart false ⟨.LS_ERROR, false⟩ 3)).map
          (fun e => (e.call, e.pre.phase, e.post.phase)) =
        [(.InitializeSSL, .Uninitialized, .Uninitialized),
          (.LogToDebug .LS_INFO, .Uninitialized, .Configured),
          (.LogTimestamps true, .Configured, .Configured),
          (.RTC_LOG .LS_INFO "Hello WebRTC!", .Configured, .Active)] :=
  ⟨rfl, (C8_configure_before_use (Spec.processStart false ⟨.LS_ERROR, false⟩ 3) rfl).1⟩

/-! Single set-up and absence of inputs -/

/-- C9: `rtc::InitializeSSL` occurs exactly once in the call trace of `main`, whatever the
library does; started with the transport context not set up, the one set-up call runs on a
context that is not set up, so it does not fail with `AlreadyInitialized`. -/
theorem C9_single_initialization (p : Spec.Process)
    (hfresh : p.transport.initialized = false) :
    (∀ (σ : Type) (L : Library σ) (s0 : σ), (callTrace L s0).count .InitializeSSL = 1) ∧
      (callTrace Spec.library p).count .InitializeSSL = 1 ∧
      (∀ e ∈ events Spec.library p, e.call = .InitializeSSL →
        e.pre.transport.initialized = false ∧
          (Spec.initializeSecureTransport e.pre).1 ≠ .error .AlreadyInitialized) := by
  refine ⟨fun σ L s0 => ?_, ?_, ?_⟩
  · rw [callTrace_eq]
    decide
  · rw [callTrace_eq]
    decide
  · intro e he hcall
    rw [events_eq] at he
    simp only [List.mem_cons, List.mem_singleton, List.not_mem_nil, or_false] at he
    rcases he with h | h | h | h <;> subst h
    · refine ⟨hfresh, ?_⟩
      unfold Spec.initializeSecureTransport
      rw [hfresh]
      simp only [Bool.false_eq_true, if_false]
      split_ifs <;> simp
    · simp at hcall
    · simp at hcall
    · simp at hcall

/-- C9 at a fresh process whose transport library is faulty: still one set-up call, and its
failure is not `AlreadyInitialized`. -/
theorem C9_single_initialization_witness :
    (Spec.processStart true ⟨.LS_INFO, true⟩ 0).transport.initialized = false ∧
      (callTrace Spec.library (Spec.processStart true ⟨.LS_INFO, true⟩ 0)).count
        .InitializeSSL = 1 ∧
      (∀ e ∈ events Spec.library (Spec.processStart true ⟨.LS_INFO, true⟩ 0),
        e.call = .InitializeSSL →
          e.pre.transport.initialized = false ∧
            (Spec.initializeSecureTransport e.pre).1 ≠ .error .AlreadyInitialized) :=
  ⟨rfl, (C9_single_initialization (Spec.processStart true ⟨.LS_INFO, true⟩ 0) rfl).2⟩

/-- C10: `main` takes no input: for every two command lines and environments the run from the
same library state returns the same result, exit code and call trace; the trace, with the
level and text of the logged record, and the exit code are in fact the same for every
library and library state. -/
theorem C10_no_input {σ τ : Type} (inv inv' : Invocation) (L : Library σ) (s0 : σ)
    (L' : Library τ) (t0 : τ) :
    start inv L s0 = start inv' L s0 ∧
      observe inv L s0 = observe inv' L s0 ∧
      observe inv L s0 =
        (0, [.InitializeSSL, .LogToDebug .LS_INFO, .LogTimestamps true,
          .RTC_LOG .LS_INFO "Hello WebRTC!"]) ∧
      observe inv L s0 = observe inv' L' t0 := by
  exact ⟨rfl, rfl, rfl, rfl⟩

end WebrtcTemplate
